import Mathlib

/-!
Shallow embedding of the bulk tabular upload pipeline of
`src/python/utilities/database.py` (class `OracleCommand`), together with
proofs about the statements of its specification.

The embedded pieces are:
* `pyEq` / `pyNe` — Python `==` / `!=` on the scalar values the pipeline
  handles, with the NaN sentinel unequal to everything, itself included;
* `castToNone` — `OracleCommand.__castToNone__`;
* `pandasToList` — `OracleCommand.__pandasToList__` (the `iterrows` append
  loop over a dataframe modelled as a column list plus a row list);
* `rstrip`, `buildInsertStrObjLoop`, `buildInsertStrObj` —
  `OracleCommand.__buildInsertStrObj__`, including the per-iteration
  `str.rstrip()` of the accumulated column-name string;
* `buildInsCursorString` — `OracleCommand.__buildInsCursorString__`;
* `runFromConnect`, `bulkGo`, `pandasBulkInsert` —
  `OracleCommand.pandasBulkInsert`, with the driver calls
  (`cx_Oracle.connect`, `cursor.prepare`, `cursor.executemany`,
  `db.commit`, `cursor.close`/`db.close`) modelled as an event trace and a
  `Driver` record saying which call, if any, raises.  The Python method has
  no `try`/`finally`, so a raising call ends the trace there: no later
  event is emitted.
-/

/-- Scalar cell values handled by the pipeline: strings, integers,
booleans, `None`, and the floating-point NaN sentinel. -/
inductive Value where
  | vInt : Int → Value
  | vStr : String → Value
  | vBool : Bool → Value
  | vNull : Value
  | vNaN : Value
deriving DecidableEq

/-- Python `==` on `Value`: NaN compares unequal to everything, itself
included; every other value compares structurally. -/
def pyEq : Value → Value → Bool
  | Value.vNaN, _ => false
  | _, Value.vNaN => false
  | v, w => decide (v = w)

/-- Python `!=` on `Value`. -/
def pyNe (v w : Value) : Bool :=
  !(pyEq v w)

/-- `OracleCommand.__castToNone__`: `if value != value: return None else
return value`. -/
def castToNone (value : Value) : Value :=
  if pyNe value value then Value.vNull else value

/-- A pandas dataframe, as the upload pipeline consumes it: an ordered
column-name list (`dataFrame.columns.values`) and the rows in order
(`dataFrame.iterrows()` yielding each row's values in column order). -/
structure DataFrame where
  columns : List String
  rows : List (List Value)
deriving DecidableEq

/-- `OracleCommand.__pandasToList__`: start from an empty `content` list
and append each row's value list in iteration order. -/
def pandasToList (dataFrame : DataFrame) : List (List Value) :=
  dataFrame.rows.foldl (fun content row => content ++ [row]) []

/-- The whitespace characters stripped by Python `str.rstrip()`. -/
def isPyWs (ch : Char) : Bool :=
  ch == ' ' || ch == '\t' || ch == '\n' || ch == '\r' || ch == '\x0b' || ch == '\x0c'

/-- Python `str.rstrip()`: drop trailing whitespace. -/
def rstrip (s : String) : String :=
  String.mk ((s.data.reverse.dropWhile isPyWs).reverse)

/-- Python `str.upper()` applied character-wise, as used by
`map(lambda x: x.upper(), colNames)`. -/
def pyUpper (s : String) : String :=
  String.mk (s.data.map Char.toUpper)

/-- The `for i, c in enumerate(colNames)` loop body of
`OracleCommand.__buildInsertStrObj__`, carrying the accumulated
`_colNameStr` and `_colNumstr`.  On `i == 0` it appends `(` and the quoted
name (then rstrips) resp. `(` and `:1`; otherwise it appends `,` and the
quoted name (then rstrips) resp. `,` and `:i+1`. -/
def buildInsertStrObjLoop : List (Nat × String) → String → String → String × String
  | [], colNameStr, colNumStr => (colNameStr, colNumStr)
  | (i, c) :: rest, colNameStr, colNumStr =>
    if i = 0 then
      buildInsertStrObjLoop rest
        (rstrip ((colNameStr ++ "(") ++ ("\"" ++ c ++ "\" ")))
        ((colNumStr ++ "(") ++ (":" ++ toString (i + 1)))
    else
      buildInsertStrObjLoop rest
        (rstrip ((colNameStr ++ ",") ++ ("\"" ++ c ++ "\" ")))
        ((colNumStr ++ ",") ++ (":" ++ toString (i + 1)))

/-- `OracleCommand.__buildInsertStrObj__`: optionally upper-case the
names, run the enumerate loop from empty accumulators, and close both
strings with `)`. -/
def buildInsertStrObj (colNames : List String) (ToUpper : Bool) : String × String :=
  let cols := if ToUpper then colNames.map (fun x => pyUpper x) else colNames
  let r := buildInsertStrObjLoop cols.enum "" ""
  (r.1 ++ ")", r.2 ++ ")")

/-- `OracleCommand.__buildInsCursorString__`:
`"INSERT INTO %s %s VALUES %s" % (tableName, colNameStr, colNumStr)`. -/
def buildInsCursorString (tableName colNumStr colNameStr : String) : String :=
  (((("INSERT INTO " ++ tableName) ++ " ") ++ colNameStr) ++ " VALUES ") ++ colNumStr

/-- Driver calls made by `pandasBulkInsert`, in the order the Python
method issues them.  `connect` covers `OracleCommand.__connect__`
(`cx_Oracle.connect` plus `db.cursor()`); `closeCursor` and `closeConn`
are the two calls of `OracleCommand.__disconnect__`. -/
inductive Event where
  | connect
  | prepare : String → Event
  | executemany : List (List Value) → Event
  | commit
  | closeCursor
  | closeConn
deriving DecidableEq

/-- Python exceptions the embedded method can let escape: the
`AssertionError` of the column-count `assert`, or a raw exception raised
by a driver call (carried with the driver's message). -/
inductive PyError where
  | assertionError
  | driverError : String → PyError
deriving DecidableEq

/-- Behaviour of the external driver on one call of `pandasBulkInsert`:
for each driver operation, `none` means the call succeeds and `some msg`
means the call raises an exception with message `msg`. -/
structure Driver where
  connectRes : Option String
  prepareRes : Option String
  executemanyRes : Option String
  commitRes : Option String
deriving DecidableEq

/-- The driver phase of `OracleCommand.pandasBulkInsert`, from
`self.__connect__()` on: connect, prepare the cursor string, execute the
batch, commit, disconnect.  The Python code has no `try`/`finally`, so a
raising call propagates immediately and nothing after it runs. -/
def runFromConnect (drv : Driver) (curString : String) (dtList : List (List Value)) :
    List Event × Except PyError Unit :=
  match drv.connectRes with
  | some msg => ([Event.connect], Except.error (PyError.driverError msg))
  | none =>
    match drv.prepareRes with
    | some msg =>
      ([Event.connect, Event.prepare curString], Except.error (PyError.driverError msg))
    | none =>
      match drv.executemanyRes with
      | some msg =>
        ([Event.connect, Event.prepare curString, Event.executemany dtList],
         Except.error (PyError.driverError msg))
      | none =>
        match drv.commitRes with
        | some msg =>
          ([Event.connect, Event.prepare curString, Event.executemany dtList, Event.commit],
           Except.error (PyError.driverError msg))
        | none =>
          ([Event.connect, Event.prepare curString, Event.executemany dtList, Event.commit,
            Event.closeCursor, Event.closeConn], Except.ok ())

/-- Body of `pandasBulkInsert` after the column-name resolution: build the
row list, normalize every cell with `__castToNone__`, build the insert
strings and the cursor string, then run the driver phase. -/
def bulkGo (drv : Driver) (dataFrame : DataFrame) (tableName : String)
    (cols : List String) (colNamesUpper : Bool) : List Event × Except PyError Unit :=
  let dtList := (pandasToList dataFrame).map (fun r => r.map castToNone)
  let r := buildInsertStrObj cols colNamesUpper
  runFromConnect drv (buildInsCursorString tableName r.2 r.1) dtList

/-- `OracleCommand.pandasBulkInsert`: when `columnNames` is `None` take
the dataframe's own column names; otherwise `assert` that the supplied
list's length equals the dataframe's column count (`dataFrame.shape[1]`),
raising `AssertionError` before anything else runs when it does not. -/
def pandasBulkInsert (drv : Driver) (dataFrame : DataFrame) (tableName : String)
    (columnNames : Option (List String)) (colNamesUpper : Bool) :
    List Event × Except PyError Unit :=
  match columnNames with
  | none => bulkGo drv dataFrame tableName dataFrame.columns colNamesUpper
  | some cols =>
    if cols.length = dataFrame.columns.length then
      bulkGo drv dataFrame tableName cols colNamesUpper
    else
      ([], Except.error PyError.assertionError)

/-- Comma-separated concatenation of a list of fragments. -/
def commaSep : List String → String
  | [] => ""
  | [s] => s
  | s :: t :: rest => s ++ "," ++ commaSep (t :: rest)

/-- Specification-level shape of the quoted column-name fragment: the
input names, in input order, each double-quoted, comma-separated,
parenthesized. -/
def quotedColList (cols : List String) : String :=
  "(" ++ commaSep (cols.map (fun c => "\"" ++ c ++ "\"")) ++ ")"

/-- Specification-level shape of the placeholder fragment:
`(:1,:2,...,:n)`. -/
def placeholders (n : Nat) : String :=
  "(" ++ commaSep ((List.range n).map (fun i => ":" ++ toString (i + 1))) ++ ")"

/-- The cursor string a call of `pandasBulkInsert` prepares, as a function
of its arguments (column names default to the dataframe's own). -/
def insStmt (dataFrame : DataFrame) (tableName : String)
    (columnNames : Option (List String)) (colNamesUpper : Bool) : String :=
  let cols := columnNames.getD dataFrame.columns
  let r := buildInsertStrObj cols colNamesUpper
  buildInsCursorString tableName r.2 r.1

/-- The column-count validation of `pandasBulkInsert` passes. -/
def valOk (dataFrame : DataFrame) : Option (List String) → Prop
  | none => True
  | some cols => cols.length = dataFrame.columns.length

/-- A driver on which every call succeeds. -/
def okDriver : Driver :=
  ⟨none, none, none, none⟩

/-- A driver whose batch-execute call raises mid-batch. -/
def execFailDriver : Driver :=
  ⟨none, none, some "ORA-01401", none⟩

/-- The spec's running example dataframe: columns `id`, `name`; rows
`[[1, "x"], [2, NaN]]`. -/
def exDf : DataFrame :=
  ⟨["id", "name"], [[Value.vInt 1, Value.vStr "x"], [Value.vInt 2, Value.vNaN]]⟩

/-- Tail of the quoted column-name fragment contributed by the `i > 0`
iterations of the loop. -/
def namesTail : List String → String
  | [] => ""
  | c :: rest => ("," ++ ("\"" ++ c ++ "\"")) ++ namesTail rest

/-- Tail of the placeholder fragment contributed by the iterations with
index `k, k+1, ...` (first argument is the first index). -/
def numsTail : Nat → Nat → String
  | _, 0 => ""
  | k, n + 1 => ("," ++ (":" ++ toString (k + 1))) ++ numsTail (k + 1) n

/-- Appending a double-quoted name followed by one space and then applying
Python `rstrip` removes exactly that space: the closing quote blocks any
further stripping. -/
theorem rstrip_quote (s c : String) :
    rstrip (s ++ ("\"" ++ c ++ "\" ")) = s ++ ("\"" ++ c ++ "\"") := by
  apply String.ext
  show ((s ++ ("\"" ++ c ++ "\" ")).data.reverse.dropWhile isPyWs).reverse
      = (s ++ ("\"" ++ c ++ "\"")).data
  have h1 : ("\"" : String).data = ['"'] := rfl
  have h2 : ("\" " : String).data = ['"', ' '] := rfl
  have hsp : isPyWs ' ' = true := rfl
  have hq : isPyWs '"' = false := rfl
  simp [String.data_append, h1, h2, List.reverse_append, List.dropWhile, hsp, hq]

/-- The append loop of `__pandasToList__` returns the rows unchanged, in
order. -/
theorem pandasToList_eq (df : DataFrame) : pandasToList df = df.rows := by
  have key : ∀ (l acc : List (List Value)),
      l.foldl (fun content row => content ++ [row]) acc = acc ++ l := by
    intro l
    induction l with
    | nil => intro acc; simp [List.foldl]
    | cons r rs ih => intro acc; simp [List.foldl, ih]
  simpa using key df.rows []

/-- Closed form of the `enumerate` loop over the iterations with positive
index: each contributes `,"name"` to the name string and `,:i+1` to the
placeholder string. -/
theorem loop_shift (cs : List String) : ∀ (k : Nat) (ns ps : String),
    buildInsertStrObjLoop (cs.enumFrom (k + 1)) ns ps
      = (ns ++ namesTail cs, ps ++ numsTail (k + 1) cs.length) := by
  induction cs with
  | nil =>
    intro k ns ps
    simp [buildInsertStrObjLoop, namesTail, numsTail, List.enumFrom,
      String.append_empty]
  | cons c cs ih =>
    intro k ns ps
    show buildInsertStrObjLoop ((k + 1, c) :: cs.enumFrom (k + 2)) ns ps = _
    rw [buildInsertStrObjLoop, if_neg (Nat.succ_ne_zero k), rstrip_quote, ih (k + 1)]
    simp [namesTail, numsTail, String.append_assoc]

/-- Unfolding `commaSep` on a list with at least two elements. -/
theorem commaSep_cons_of_ne (s : String) (l : List String) (h : l ≠ []) :
    commaSep (s :: l) = (s ++ ",") ++ commaSep l := by
  cases l with
  | nil => exact absurd rfl h
  | cons t rest => rfl

/-- The quoted head plus the loop tail is the comma-separated quoted
list. -/
theorem commaSep_names (cs : List String) : ∀ c : String,
    ("\"" ++ c ++ "\"") ++ namesTail cs
      = commaSep ((c :: cs).map (fun x => "\"" ++ x ++ "\"")) := by
  induction cs with
  | nil => intro c; simp [namesTail, commaSep, String.append_empty]
  | cons d ds ih =>
    intro c
    rw [List.map_cons, commaSep_cons_of_ne _ _ (by simp), ← ih d]
    simp only [namesTail]
    apply String.ext
    have e1 : ("\"" : String).data = ['"'] := rfl
    have e2 : ("," : String).data = [','] := rfl
    simp [String.data_append, e1, e2, List.append_assoc]

/-- The placeholder head plus the loop tail is the comma-separated
placeholder list. -/
theorem commaSep_nums (n : Nat) : ∀ k : Nat,
    (":" ++ toString (k + 1)) ++ numsTail (k + 1) n
      = commaSep ((List.range (n + 1)).map (fun i => ":" ++ toString (k + i + 1))) := by
  induction n with
  | zero => intro k; simp [numsTail, commaSep, String.append_empty, List.range_succ_eq_map]
  | succ n ih =>
    intro k
    rw [List.range_succ_eq_map, List.map_cons, commaSep_cons_of_ne _ _ (by simp),
      List.map_map]
    have hc : (List.range (n + 1)).map ((fun i => ":" ++ toString (k + i + 1)) ∘ Nat.succ)
        = (List.range (n + 1)).map (fun i => ":" ++ toString ((k + 1) + i + 1)) := by
      apply List.map_congr_left
      intro a _
      show ":" ++ toString (k + Nat.succ a + 1) = ":" ++ toString ((k + 1) + a + 1)
      have h3 : k + Nat.succ a + 1 = (k + 1) + a + 1 := by omega
      rw [h3]
    rw [hc, ← ih (k + 1)]
    simp [numsTail, String.append_assoc]

/-- Closed form of `__buildInsertStrObj__` on a non-empty column list
without upper-casing: the parenthesized quoted column list and the
parenthesized placeholder list `(:1,...,:n)`. -/
theorem buildInsertStrObj_closed (c : String) (cs : List String) :
    buildInsertStrObj (c :: cs) false
      = (quotedColList (c :: cs), placeholders (c :: cs).length) := by
  have hloop : buildInsertStrObjLoop ((c :: cs).enum) "" ""
      = (("(" ++ ("\"" ++ c ++ "\"")) ++ namesTail cs,
         ("(" ++ (":" ++ toString (0 + 1))) ++ numsTail 1 cs.length) := by
    show buildInsertStrObjLoop ((0, c) :: cs.enumFrom 1) "" "" = _
    rw [buildInsertStrObjLoop, if_pos rfl, rstrip_quote]
    have h1 := loop_shift cs 0 (("" ++ "(") ++ ("\"" ++ c ++ "\""))
      (("" ++ "(") ++ (":" ++ toString (0 + 1)))
    rw [String.empty_append] at h1
    exact h1
  have hfst : (buildInsertStrObj (c :: cs) false).1 = quotedColList (c :: cs) := by
    show (buildInsertStrObjLoop ((c :: cs).enum) "" "").1 ++ ")" = _
    rw [hloop]
    unfold quotedColList
    rw [← commaSep_names cs c]
    simp [String.append_assoc]
  have hsnd : (buildInsertStrObj (c :: cs) false).2 = placeholders (c :: cs).length := by
    show (buildInsertStrObjLoop ((c :: cs).enum) "" "").2 ++ ")" = _
    rw [hloop]
    unfold placeholders
    have hmap : (List.range (cs.length + 1)).map (fun i => ":" ++ toString (i + 1))
        = (List.range (cs.length + 1)).map (fun i => ":" ++ toString (0 + i + 1)) := by
      apply List.map_congr_left
      intro a _
      rw [Nat.zero_add]
    rw [List.length_cons, hmap, ← commaSep_nums cs.length 0]
    simp [String.append_assoc]
  exact Prod.ext hfst hsnd

/-- Any `prepare` event in the driver phase carries the built cursor
string. -/
theorem runFromConnect_prepare_mem (drv : Driver) (cs : String)
    (dt : List (List Value)) (s : String)
    (h : Event.prepare s ∈ (runFromConnect drv cs dt).1) : s = cs := by
  rcases drv with ⟨c, p, e, m⟩
  cases c <;> cases p <;> cases e <;> cases m <;> simp_all [runFromConnect]

/-- Any `executemany` event in the driver phase carries the normalized row
batch. -/
theorem runFromConnect_exec_mem (drv : Driver) (cs : String)
    (dt : List (List Value)) (b : List (List Value))
    (h : Event.executemany b ∈ (runFromConnect drv cs dt).1) : b = dt := by
  rcases drv with ⟨c, p, e, m⟩
  cases c <;> cases p <;> cases e <;> cases m <;> simp_all [runFromConnect]

/-- A successful driver phase performs exactly connect, prepare, batch
execute, commit, cursor close, connection close, in that order. -/
theorem runFromConnect_ok_trace (drv : Driver) (cs : String)
    (dt : List (List Value)) (h : (runFromConnect drv cs dt).2 = Except.ok ()) :
    (runFromConnect drv cs dt).1
      = [Event.connect, Event.prepare cs, Event.executemany dt, Event.commit,
         Event.closeCursor, Event.closeConn] := by
  rcases drv with ⟨c, p, e, m⟩
  cases c <;> cases p <;> cases e <;> cases m <;> simp_all [runFromConnect]

/-- The driver phase never raises the validation `AssertionError`. -/
theorem runFromConnect_no_assert (drv : Driver) (cs : String)
    (dt : List (List Value)) :
    (runFromConnect drv cs dt).2 ≠ Except.error PyError.assertionError := by
  rcases drv with ⟨c, p, e, m⟩
  cases c <;> cases p <;> cases e <;> cases m <;> simp [runFromConnect]

/-- When `executemany` raises, the driver phase stops there: no commit and
no close call is made, and the raw driver error propagates. -/
theorem runFromConnect_exec_fail (drv : Driver) (cs : String)
    (dt : List (List Value)) (msg : String) (hc : drv.connectRes = none)
    (hp : drv.prepareRes = none) (he : drv.executemanyRes = some msg) :
    runFromConnect drv cs dt
      = ([Event.connect, Event.prepare cs, Event.executemany dt],
         Except.error (PyError.driverError msg)) := by
  rcases drv with ⟨c, p, e, m⟩
  simp only at hc hp he
  subst hc hp he
  rfl

/-- Claim C2: the batch handed to the driver batch-execute call is the
dataframe rows in row order, values in column order, no row dropped, each
cell normalized by `__castToNone__`. -/
theorem c2_batch_is_normalized_rows (drv : Driver) (df : DataFrame) (T : String)
    (colsOpt : Option (List String)) (up : Bool) (b : List (List Value))
    (h : Event.executemany b ∈ (pandasBulkInsert drv df T colsOpt up).1) :
    b = df.rows.map (List.map castToNone) := by
  rw [← pandasToList_eq]
  cases colsOpt with
  | none => exact runFromConnect_exec_mem drv _ _ b h
  | some cols =>
    by_cases hlen : cols.length = df.columns.length
    · have h2 : Event.executemany b ∈ (runFromConnect drv
          (buildInsCursorString T (buildInsertStrObj cols up).2 (buildInsertStrObj cols up).1)
          ((pandasToList df).map (fun r => r.map castToNone))).1 := by
        simpa [pandasBulkInsert, bulkGo, hlen] using h
      exact runFromConnect_exec_mem drv _ _ b h2
    · simp [pandasBulkInsert, hlen] at h

/-- Claim C7: every successful upload call performs exactly connect,
prepare of the generated statement, one batch execute of all normalized
rows, commit, and close (cursor then connection), each once, in this
order, with no retries. -/
theorem c7_success_call_sequence (drv : Driver) (df : DataFrame) (T : String)
    (colsOpt : Option (List String)) (up : Bool)
    (h : (pandasBulkInsert drv df T colsOpt up).2 = Except.ok ()) :
    (pandasBulkInsert drv df T colsOpt up).1
      = [Event.connect, Event.prepare (insStmt df T colsOpt up),
         Event.executemany (df.rows.map (List.map castToNone)), Event.commit,
         Event.closeCursor, Event.closeConn] := by
  rw [← pandasToList_eq]
  cases colsOpt with
  | none => exact runFromConnect_ok_trace drv _ _ h
  | some cols =>
    by_cases hlen : cols.length = df.columns.length
    · have h2 := runFromConnect_ok_trace drv (insStmt df T (some cols) up)
        ((pandasToList df).map (fun r => r.map castToNone))
        (by simpa [pandasBulkInsert, bulkGo, hlen] using h)
      simpa [pandasBulkInsert, bulkGo, hlen] using h2
    · simp [pandasBulkInsert, hlen] at h

/-- Claim C1 (amended): for every call of the bulk upload with table name
`T` and a non-empty column-name list, the statement prepared on the cursor
is `INSERT INTO T ("c1",...,"cn") VALUES (:1,...,:n)` with the table name
inserted verbatim, not double-quoted; the column names are double-quoted.
The claim as stated (table name double-quoted by the code) is refuted by
`c1_claimed_statement_counterexample`. -/
theorem c1_insert_statement_table_verbatim (drv : Driver) (df : DataFrame)
    (T : String) (cols : List String) (s : String) (hne : cols ≠ [])
    (h : Event.prepare s ∈ (pandasBulkInsert drv df T (some cols) false).1) :
    s = buildInsCursorString T (placeholders cols.length) (quotedColList cols) := by
  cases cols with
  | nil => exact absurd rfl hne
  | cons c cs =>
    by_cases hlen : (c :: cs).length = df.columns.length
    · have h2 : Event.prepare s ∈ (runFromConnect drv
          (buildInsCursorString T (buildInsertStrObj (c :: cs) false).2
            (buildInsertStrObj (c :: cs) false).1)
          ((pandasToList df).map (fun r => r.map castToNone))).1 := by
        simpa [pandasBulkInsert, bulkGo, hlen] using h
      have hs := runFromConnect_prepare_mem drv _ _ s h2
      rw [hs, buildInsertStrObj_closed]
    · simp only [pandasBulkInsert] at h
      rw [if_neg (by simpa using hlen)] at h
      simp at h

/-- Claim C3: the null normalizer `__castToNone__` maps any value that
does not equal itself (the NaN sentinel, detected by self-inequality) to
`None` and returns every self-equal value unchanged. -/
theorem c3_cast_to_none_by_self_equality :
    (∀ v, pyEq v v = false → castToNone v = Value.vNull)
      ∧ (∀ v, pyEq v v = true → castToNone v = v) := by
  constructor <;> intro v h <;> simp [castToNone, pyNe, h]

/-- Claim C4: on every non-empty column-name list of length `n`,
`__buildInsertStrObj__` returns the parenthesized comma-separated
double-quoted names, in input order, and the parenthesized placeholder
list `(:1,...,:n)` of the same length. -/
theorem c4_insert_fragments (cols : List String) (h : cols ≠ []) :
    buildInsertStrObj cols false = (quotedColList cols, placeholders cols.length) := by
  cases cols with
  | nil => exact absurd rfl h
  | cons c cs => exact buildInsertStrObj_closed c cs

/-- Claim C5: supplying a `columnNames` list whose length differs from the
dataframe column count makes `pandasBulkInsert` fail with the validation
`AssertionError` (the spec calls this error `ValidationError`) and an
empty driver trace: connect is never invoked. -/
theorem c5_validation_before_connect (drv : Driver) (df : DataFrame) (T : String)
    (cols : List String) (up : Bool) (h : cols.length ≠ df.columns.length) :
    pandasBulkInsert drv df T (some cols) up
      = ([], Except.error PyError.assertionError) := by
  simp [pandasBulkInsert, h]

/-- Claim C6 (amended): if the driver raises during `executemany`, the raw
driver error propagates to the caller unwrapped and no close call is
invoked on that path, so the session is not released; close happens only
on the fully successful path.  The claim as stated (close exactly once and
a typed `ExecutionError`) is refuted by
`c6_exec_failure_no_close_counterexample`. -/
theorem c6_exec_failure_skips_close (drv : Driver) (df : DataFrame) (T : String)
    (colsOpt : Option (List String)) (up : Bool) (msg : String)
    (hv : valOk df colsOpt) (hc : drv.connectRes = none)
    (hp : drv.prepareRes = none) (he : drv.executemanyRes = some msg) :
    (pandasBulkInsert drv df T colsOpt up).2 = Except.error (PyError.driverError msg)
      ∧ Event.closeCursor ∉ (pandasBulkInsert drv df T colsOpt up).1
      ∧ Event.closeConn ∉ (pandasBulkInsert drv df T colsOpt up).1 := by
  have key : ∀ cs dt, runFromConnect drv cs dt
      = ([Event.connect, Event.prepare cs, Event.executemany dt],
         Except.error (PyError.driverError msg)) :=
    fun cs dt => runFromConnect_exec_fail drv cs dt msg hc hp he
  cases colsOpt with
  | none =>
    refine ⟨?_, ?_, ?_⟩ <;> simp [pandasBulkInsert, bulkGo, key]
  | some cols =>
    have hlen : cols.length = df.columns.length := hv
    refine ⟨?_, ?_, ?_⟩ <;> simp [pandasBulkInsert, bulkGo, hlen, key]

/-- Claim C8: with the upper-casing flag the generated fragments are those
of the upper-cased column names, so every name in the quoted column list
is upper-cased; without it names are kept as supplied; the placeholder
fragment is identical in both cases. -/
theorem c8_upper_casing (cols : List String) :
    buildInsertStrObj cols true = buildInsertStrObj (cols.map pyUpper) false
      ∧ (buildInsertStrObj cols true).2 = (buildInsertStrObj cols false).2 := by
  have h1 : buildInsertStrObj cols true = buildInsertStrObj (cols.map pyUpper) false := rfl
  refine ⟨h1, ?_⟩
  cases cols with
  | nil => rfl
  | cons c cs =>
    rw [h1]
    show (buildInsertStrObj (pyUpper c :: cs.map pyUpper) false).2 = _
    rw [buildInsertStrObj_closed, buildInsertStrObj_closed]
    simp

/-- Claim C9: on the empty column list `__buildInsertStrObj__` does not
fail but returns the malformed pair of fragments `)` and `)`: a bare
closing parenthesis each, with no opening parenthesis. -/
theorem c9_empty_column_list : buildInsertStrObj [] false = (")", ")")
    ∧ buildInsertStrObj [] true = (")", ")") := by
  constructor <;> rfl

/-- Claim C10: when `columnNames` is omitted, `pandasBulkInsert` behaves
exactly as if the dataframe column names, in dataframe order, had been
supplied, and the column-count validation cannot fire on this path. -/
theorem c10_default_columns_no_validation (drv : Driver) (df : DataFrame)
    (T : String) (up : Bool) :
    pandasBulkInsert drv df T none up = pandasBulkInsert drv df T (some df.columns) up
      ∧ (pandasBulkInsert drv df T none up).2 ≠ Except.error PyError.assertionError := by
  constructor
  · simp [pandasBulkInsert]
  · exact runFromConnect_no_assert drv _ _

/-- Claim C1, counterexample to the claim as stated: for table name `T`
and columns `id`, `name`, the prepared statement is
`INSERT INTO T ("id","name") VALUES (:1,:2)`; the claimed text with the
table name double-quoted is never prepared. -/
theorem c1_claimed_statement_counterexample :
    Event.prepare "INSERT INTO \"T\" (\"id\",\"name\") VALUES (:1,:2)"
        ∉ (pandasBulkInsert okDriver exDf "T" (some ["id", "name"]) false).1
      ∧ Event.prepare "INSERT INTO T (\"id\",\"name\") VALUES (:1,:2)"
        ∈ (pandasBulkInsert okDriver exDf "T" (some ["id", "name"]) false).1 := by
  constructor <;> decide

/-- Witness for the amended claim C1 at a concrete input. -/
theorem c1_insert_statement_table_verbatim_witness :
    "INSERT INTO T (\"id\",\"name\") VALUES (:1,:2)"
      = buildInsCursorString "T" (placeholders 2) (quotedColList ["id", "name"]) :=
  c1_insert_statement_table_verbatim okDriver exDf "T" ["id", "name"]
    "INSERT INTO T (\"id\",\"name\") VALUES (:1,:2)" (by decide) (by decide)

/-- Witness for claim C2 on the spec example rows `[[1,"x"],[2,NaN]]`. -/
theorem c2_batch_is_normalized_rows_witness :
    (Event.executemany [[Value.vInt 1, Value.vStr "x"], [Value.vInt 2, Value.vNull]]
        ∈ (pandasBulkInsert okDriver exDf "T" none false).1)
      ∧ [[Value.vInt 1, Value.vStr "x"], [Value.vInt 2, Value.vNull]]
          = exDf.rows.map (List.map castToNone) :=
  ⟨by decide, c2_batch_is_normalized_rows okDriver exDf "T" none false _ (by decide)⟩

/-- Witness for claim C3 at NaN, `0`, the empty string, and `false`. -/
theorem c3_cast_to_none_by_self_equality_witness :
    castToNone Value.vNaN = Value.vNull
      ∧ castToNone (Value.vInt 0) = Value.vInt 0
      ∧ castToNone (Value.vStr "") = Value.vStr ""
      ∧ castToNone (Value.vBool false) = Value.vBool false :=
  ⟨c3_cast_to_none_by_self_equality.1 Value.vNaN (by decide),
   c3_cast_to_none_by_self_equality.2 (Value.vInt 0) (by decide),
   c3_cast_to_none_by_self_equality.2 (Value.vStr "") (by decide),
   c3_cast_to_none_by_self_equality.2 (Value.vBool false) (by decide)⟩

/-- Witness for claim C4 on the spec example `["A","B"]`. -/
theorem c4_insert_fragments_witness :
    buildInsertStrObj ["A", "B"] false = ("(\"A\",\"B\")", "(:1,:2)") :=
  (c4_insert_fragments ["A", "B"] (by decide)).trans (by decide)

/-- Witness for claim C5: one supplied name against a two-column
dataframe. -/
theorem c5_validation_before_connect_witness :
    pandasBulkInsert okDriver exDf "T" (some ["id"]) false
      = ([], Except.error PyError.assertionError) :=
  c5_validation_before_connect okDriver exDf "T" ["id"] false (by decide)

/-- Claim C6, counterexample to the claim as stated: when `executemany`
raises, close is invoked zero times, not exactly once, and the error is
the raw driver error. -/
theorem c6_exec_failure_no_close_counterexample :
    (pandasBulkInsert execFailDriver exDf "T" none false).1.count Event.closeCursor = 0
      ∧ (pandasBulkInsert execFailDriver exDf "T" none false).1.count Event.closeConn = 0
      ∧ (pandasBulkInsert execFailDriver exDf "T" none false).2
          = Except.error (PyError.driverError "ORA-01401") :=
  ⟨by decide, by decide, rfl⟩

/-- Witness for the amended claim C6 at a concrete failing driver. -/
theorem c6_exec_failure_skips_close_witness :
    (pandasBulkInsert execFailDriver exDf "T" none false).2
        = Except.error (PyError.driverError "ORA-01401")
      ∧ Event.closeCursor ∉ (pandasBulkInsert execFailDriver exDf "T" none false).1
      ∧ Event.closeConn ∉ (pandasBulkInsert execFailDriver exDf "T" none false).1 :=
  c6_exec_failure_skips_close execFailDriver exDf "T" none false "ORA-01401"
    True.intro rfl rfl rfl

/-- Witness for claim C7 on an all-successful driver. -/
theorem c7_success_call_sequence_witness :
    (pandasBulkInsert okDriver exDf "T" none false).1
      = [Event.connect, Event.prepare (insStmt exDf "T" none false),
         Event.executemany (exDf.rows.map (List.map castToNone)), Event.commit,
         Event.closeCursor, Event.closeConn] :=
  c7_success_call_sequence okDriver exDf "T" none false rfl

/-- Witness for claim C10 at a concrete call. -/
theorem c10_default_columns_no_validation_witness :
    pandasBulkInsert okDriver exDf "T" none false
        = pandasBulkInsert okDriver exDf "T" (some exDf.columns) false
      ∧ (pandasBulkInsert okDriver exDf "T" none false).2
          ≠ Except.error PyError.assertionError :=
  c10_default_columns_no_validation okDriver exDf "T" false
